import Mathlib

/-!
Shallow embedding of `src/include/gechtest.hpp` (gechtest, a single-header
C++ unit-testing library).  The mutable `gech::test` object becomes an
explicit state record `gech.TestState`; every member function becomes a
state-passing Lean function.  Wall-clock measurements are modelled by
explicit duration parameters (the clock is an external capability), and
`std::abort` is modelled by a `Bool` abort flag threaded through the
operations that can reach it.  Generic comparable operands are
instantiated at `Int`.
-/

namespace gech

/-- The `test_types` enumeration of the source (comparison kinds). -/
inductive test_types where
  | Eq
  | UnEq
  | Gt
  | Lt
  | GEq
  | LEq
  | MemLeak
deriving DecidableEq, Repr

/-- The `test_results` enumeration of the source. -/
inductive test_results where
  | Error
  | Success
  | Critical
deriving DecidableEq, Repr

/-- `std::source_location`: file, function, line, column. -/
structure SourceLocation where
  file_name : String
  function_name : String
  line : Nat
  column : Nat
deriving DecidableEq, Repr

/-- A default-constructed `std::source_location` (empty names, zero position). -/
def defaultLoc : SourceLocation := ⟨"", "", 0, 0⟩

/-- `gech::test_rc_node` (declared in the source; never populated by any
operation). -/
structure test_rc_node where
  name : String
  type : String
  current_location : SourceLocation
deriving DecidableEq, Repr

/-- `gech::test_log_node`.  `ms_took` defaults to `0` as in the source
initializer.  The C++ members `result` and `data` are left indeterminate by
the default constructor; `result` is modelled as `Option test_results` with
`none` for "never written", and `func` (a raw function pointer, `nullptr`
meaning no associated sub-function) as `Option Nat` over function
identifiers. -/
structure test_log_node where
  ms_took : Nat := 0
  result : Option test_results := none
  data : String := ""
  func : Option Nat := none
deriving DecidableEq, Repr

/-- The state of a `gech::test` object, plus the text written to `std::cout`
(`output`, a list of emitted fragments in order).  `func` is the identifier
of the primary case body; `main_ms` (the construction timestamp) is not
stored: elapsed times are supplied to `summary`/`assert_rc` as explicit
parameters. -/
structure TestState where
  line : Nat
  column : Nat
  file_name : String
  function_name : String
  rc : Int
  errors : Nat
  infos : List test_log_node
  rc_infos : List test_rc_node
  func : Nat
  current_location : SourceLocation
  output : List String
deriving DecidableEq, Repr

/-- `gech::test::fill_infos`: copies the given location into the four
declaration-metadata members. -/
def fill_infos (loc : SourceLocation) (s : TestState) : TestState :=
  { s with
    line := loc.line
    column := loc.column
    file_name := loc.file_name
    function_name := loc.function_name }

/-- The `gech::test` constructor: stores the case body and calls
`fill_infos` with the declaration location; every other member starts at
its initializer value (`rc = 0`, `errors = 0`, empty vectors,
default-constructed `current_location`). -/
def test_init (f : Nat) (declLoc : SourceLocation) : TestState :=
  fill_infos declLoc
    { line := 0
      column := 0
      file_name := ""
      function_name := ""
      rc := 0
      errors := 0
      infos := []
      rc_infos := []
      func := f
      current_location := defaultLoc
      output := [] }

/-- The text block written by `gech::test::summary`, given the state's
`current_location`, the error count, and the elapsed nanoseconds. -/
def summaryText (loc : SourceLocation) (errors : Nat) (elapsed : Nat) : String :=
  "\n[SUMMARY]\n" ++ "File: " ++ loc.file_name ++ "\n" ++ "Error/s: "
    ++ toString errors ++ "\n" ++ toString elapsed ++ "ns\n"

/-- `gech::test::summary`: prints the summary block; `elapsed` models
`since_time().count()`. -/
def summary (elapsed : Nat) (s : TestState) : TestState :=
  { s with output := s.output ++ [summaryText s.current_location s.errors elapsed] }

/-- `gech::test::draw_case`: prints the status tag for a log node and, in
the fall-through (neither `Critical` nor `Success`) branch only, increments
the error tally. -/
def draw_case (node : test_log_node) (s : TestState) : TestState :=
  if node.result = some test_results.Critical then
    { s with output := s.output ++ ["[CRITICAL]: "] }
  else if node.result = some test_results.Success then
    { s with output := s.output ++ ["[SUCCESS]: "] }
  else
    { s with output := s.output ++ ["[FAILED]: "], errors := s.errors + 1 }

/-- The per-assertion line printed by `gech::test::put` after the status
tag: location, duration and message of the drawn node. -/
def putLine (loc : SourceLocation) (node : test_log_node) : String :=
  "(" ++ loc.file_name ++ ", " ++ toString loc.line ++ ":" ++ toString loc.column
    ++ ":" ++ toString node.ms_took ++ "ns" ++ ") [" ++ loc.function_name
    ++ "] -> " ++ node.data ++ "\n"

/-- `gech::test::put`: reads `infos.back()` (its variadic `message`
arguments are never used by the body and are omitted here), draws the
status tag via `draw_case`, then prints the detail line from
`current_location` and the node.  Calling it on an empty ledger is
undefined behaviour in C++; it is modelled as the identity and is never
reached on an empty ledger by the operations below. -/
def put (s : TestState) : TestState :=
  match s.infos.getLast? with
  | none => s
  | some info =>
    let s1 := draw_case info s
    { s1 with output := s1.output ++ [putLine s.current_location info] }

/-- `gech::test::put_log`: builds a fresh node carrying the result and the
message, appends it to the ledger, and returns (a copy of) the node. -/
def put_log (result : test_results) (message : String) (s : TestState) :
    TestState × test_log_node :=
  let val : test_log_node :=
    { ms_took := 0, result := some result, data := message, func := none }
  ({ s with infos := s.infos ++ [val] }, val)

/-- `gech::test::assert` instantiated at `Int` operands: stores the call
location into `current_location`, then switches on the comparison kind;
each evaluated kind appends one node via `put_log` and draws it via `put`.
`MemLeak` has no case in the source switch, so nothing further happens. -/
def assert (t : test_types) (a b : Int) (loc : SourceLocation) (s0 : TestState) :
    TestState :=
  let s := { s0 with current_location := loc }
  match t with
  | test_types.Eq =>
    if a = b then (put_log test_results.Success "OK" s).1 |> put
    else (put_log test_results.Error "Given values are not equal, expected equal" s).1 |> put
  | test_types.UnEq =>
    if a ≠ b then (put_log test_results.Success "OK" s).1 |> put
    else (put_log test_results.Error "Given values are equal, expected not equal" s).1 |> put
  | test_types.Gt =>
    if a > b then (put_log test_results.Success "OK" s).1 |> put
    else (put_log test_results.Error "Given values are not greater, expected greater" s).1 |> put
  | test_types.Lt =>
    if a < b then (put_log test_results.Success "OK" s).1 |> put
    else (put_log test_results.Error "Given values are greater, expected not greater" s).1 |> put
  | test_types.GEq =>
    if a ≥ b then (put_log test_results.Success "OK" s).1 |> put
    else (put_log test_results.Error "Given values are not greater or equal, expected greater or equal" s).1 |> put
  | test_types.LEq =>
    if a ≤ b then (put_log test_results.Success "OK" s).1 |> put
    else (put_log test_results.Error "Given values are greater or equal, expected not greater or equal" s).1 |> put
  | test_types.MemLeak => s

/-- `gech::test::assert_rc`: when the resource counter is negative, appends
a `Critical` node, draws it, prints the summary and calls `std::abort` —
modelled by the `true` abort flag.  Its `location` parameter is forwarded
to `put`, which ignores it; in particular `current_location` is not
updated.  Otherwise it does nothing. -/
def assert_rc (elapsed : Nat) (s : TestState) : TestState × Bool :=
  if s.rc < 0 then
    let s1 := put (put_log test_results.Critical "(RC < 0) Deallocating not allocated value" s).1
    (summary elapsed s1, true)
  else (s, false)

/-- `gech::test::test_function`: registers a sub-function by appending a
node whose `func` member is set (all other members at their defaults). -/
def test_function (f : Nat) (s : TestState) : TestState :=
  { s with infos := s.infos ++ [{ ms_took := 0, result := none, data := "", func := some f }] }

/-- The six fixed-kind wrappers `assert_eq` … `assert_leq`. -/
def assert_eq (a b : Int) (loc : SourceLocation) (s : TestState) : TestState :=
  assert test_types.Eq a b loc s

def assert_uneq (a b : Int) (loc : SourceLocation) (s : TestState) : TestState :=
  assert test_types.UnEq a b loc s

def assert_gt (a b : Int) (loc : SourceLocation) (s : TestState) : TestState :=
  assert test_types.Gt a b loc s

def assert_lt (a b : Int) (loc : SourceLocation) (s : TestState) : TestState :=
  assert test_types.Lt a b loc s

def assert_geq (a b : Int) (loc : SourceLocation) (s : TestState) : TestState :=
  assert test_types.GEq a b loc s

def assert_leq (a b : Int) (loc : SourceLocation) (s : TestState) : TestState :=
  assert test_types.LEq a b loc s

/-- `infos.back().ms_took = d`: overwrite the duration of the last node (no
effect on an empty list, which `run_tests` never reaches). -/
def backfillLast (d : Nat) (l : List test_log_node) : List test_log_node :=
  match l.getLast? with
  | none => l
  | some n => l.set (l.length - 1) { n with ms_took := d }

/-- `gech::test::run_tests`.  `body` is the behaviour of the stored case
body `this->func` (run first, inside `calculate_time`); `durBody` the
duration measured for it; `durOf` the duration oracle for registered
sub-functions, whose execution is modelled as an effect-free timed call
(the source iterates the `infos` vector while calling them, which would be
undefined behaviour if a sub-function appended to the ledger).  In C++ the
right-hand side of `infos.back().ms_took = calculate_time(func)` is
sequenced before `infos.back()`, so the body runs before `back()` is taken;
`back()` on a still-empty ledger is undefined behaviour, modelled as
`none`.  Returns the final state and the list of sub-function identifiers
executed by the loop, in order. -/
def run_tests (durBody : Nat) (durOf : Nat → Nat) (body : TestState → TestState)
    (s : TestState) : Option (TestState × List Nat) :=
  let s1 := body s
  match s1.infos with
  | [] => none
  | _ :: _ =>
    let infos1 := backfillLast durBody s1.infos
    let infos2 := infos1.map fun n =>
      match n.func with
      | some f => { n with ms_took := durOf f }
      | none => n
    some ({ s1 with infos := infos2 }, s1.infos.filterMap fun n => n.func)

/-- The `ALLOC` macro, counter part: `assert_rc(); ++rc;` — the check runs
on the pre-mutation counter; if it aborts, the increment never happens (the
external `new` is outside the counter model). -/
def alloc_step (elapsed : Nat) (s : TestState) : TestState × Bool :=
  let p := assert_rc elapsed s
  if p.2 then p else ({ p.1 with rc := p.1.rc + 1 }, false)

/-- The `DEALLOC` macro, counter part: `--rc; assert_rc();` — the counter
is decremented first and the check runs on the post-mutation value. -/
def dealloc_step (elapsed : Nat) (s : TestState) : TestState × Bool :=
  assert_rc elapsed { s with rc := s.rc - 1 }

/-- Modelled from the spec: a `DEALLOC` whose guard check runs before the
release mutation ("`check()` must run before every acquire/release
mutation"), for comparison with `dealloc_step`, which is what the source
does. -/
def dealloc_checkFirst (elapsed : Nat) (s : TestState) : TestState × Bool :=
  let p := assert_rc elapsed s
  if p.2 then p else ({ p.1 with rc := p.1.rc - 1 }, false)

/-- The `gech::test` destructor: `assert_rc()` then `summary()`; if the
guard aborts, the second summary is never printed. -/
def test_destructor (elapsedRC elapsedSum : Nat) (s : TestState) : TestState × Bool :=
  let p := assert_rc elapsedRC s
  if p.2 then p else (summary elapsedSum p.1, false)

/-- One step of a test-case body: the harness operations a case body can
issue, each with its externally measured elapsed time where one is
printed. -/
inductive Op where
  | opAssert (t : test_types) (a b : Int) (loc : SourceLocation)
  | opTestFunction (f : Nat)
  | opAlloc (elapsed : Nat)
  | opDealloc (elapsed : Nat)
  | opAssertRC (elapsed : Nat)
  | opSummary (elapsed : Nat)
deriving Repr

/-- Execute one harness operation; the flag is `true` when the operation
called `std::abort`. -/
def execOp : Op → TestState → TestState × Bool
  | Op.opAssert t a b loc, s => (assert t a b loc s, false)
  | Op.opTestFunction f, s => (test_function f s, false)
  | Op.opAlloc e, s => alloc_step e s
  | Op.opDealloc e, s => dealloc_step e s
  | Op.opAssertRC e, s => assert_rc e s
  | Op.opSummary e, s => (summary e s, false)

/-- Execute a sequence of harness operations, stopping at the first abort
(an aborted process executes nothing further). -/
def execOps : List Op → TestState → TestState × Bool
  | [], s => (s, false)
  | o :: rest, s =>
    let p := execOp o s
    if p.2 then (p.1, true) else execOps rest p.1

/-- The condition under which an operation aborts: only the resource-guard
paths are fatal, each firing exactly when the counter value it inspects is
negative (for `DEALLOC`, the already-decremented one). -/
def fatalRC : Op → TestState → Prop
  | Op.opAlloc _, s => s.rc < 0
  | Op.opDealloc _, s => s.rc - 1 < 0
  | Op.opAssertRC _, s => s.rc < 0
  | _, _ => False

/-- The binary predicate the engine evaluates for each comparison kind
(`MemLeak` is never evaluated). -/
def predOf : test_types → Int → Int → Bool
  | test_types.Eq, a, b => decide (a = b)
  | test_types.UnEq, a, b => decide (a ≠ b)
  | test_types.Gt, a, b => decide (a > b)
  | test_types.Lt, a, b => decide (a < b)
  | test_types.GEq, a, b => decide (a ≥ b)
  | test_types.LEq, a, b => decide (a ≤ b)
  | test_types.MemLeak, _, _ => false

/-- The kind-specific failure message recorded by each evaluated branch. -/
def failMsg : test_types → String
  | test_types.Eq => "Given values are not equal, expected equal"
  | test_types.UnEq => "Given values are equal, expected not equal"
  | test_types.Gt => "Given values are not greater, expected greater"
  | test_types.Lt => "Given values are greater, expected not greater"
  | test_types.GEq => "Given values are not greater or equal, expected greater or equal"
  | test_types.LEq => "Given values are greater or equal, expected not greater or equal"
  | test_types.MemLeak => ""

/-- The node an evaluated assertion appends: `Success`/"OK" when the
predicate holds, `Error` with the kind-specific message otherwise. -/
def assertEntry (t : test_types) (a b : Int) : test_log_node :=
  if predOf t a b then
    { ms_took := 0, result := some test_results.Success, data := "OK", func := none }
  else
    { ms_took := 0, result := some test_results.Error, data := failMsg t, func := none }

/-- The node appended by a firing resource-guard check. -/
def critEntry : test_log_node :=
  { ms_took := 0, result := some test_results.Critical
    data := "(RC < 0) Deallocating not allocated value", func := none }

/-- The status tag `draw_case` prints for a node. -/
def drawTag (n : test_log_node) : String :=
  if n.result = some test_results.Critical then "[CRITICAL]: "
  else if n.result = some test_results.Success then "[SUCCESS]: "
  else "[FAILED]: "

/-- The amount `draw_case` adds to the error tally for a node. -/
def drawInc (n : test_log_node) : Nat :=
  if n.result = some test_results.Critical then 0
  else if n.result = some test_results.Success then 0
  else 1

/-- Number of ledger entries whose recorded result is `Error`. -/
def countError (l : List test_log_node) : Nat :=
  (l.filter fun n => decide (n.result = some test_results.Error)).length

/-- Number of ledger entries whose recorded result is `Error` or
`Critical` (the counting the spec describes). -/
def countErrOrCrit (l : List test_log_node) : Nat :=
  (l.filter fun n =>
    decide (n.result = some test_results.Error ∨ n.result = some test_results.Critical)).length

/-- A state with the four declaration-metadata members replaced (used to
state that no operation ever reads them). -/
def setDecl (l c : Nat) (fb fn : String) (s : TestState) : TestState :=
  { s with line := l, column := c, file_name := fb, function_name := fn }

/-- The error tally equals the number of `Error` entries in the ledger. -/
def errInv (s : TestState) : Prop := s.errors = countError s.infos

/-- A freshly constructed case state whose resource counter has been driven
to `-1` (one release with no matching acquire). -/
def sNeg : TestState := { test_init 0 defaultLoc with rc := -1 }

/-- The duration `run_tests` leaves in the `i`-th of `len` ledger entries: a
registered sub-function's entry gets its own measurement, the last entry
(when not a sub-function's) gets the whole-body duration, every other entry
keeps its previous duration. -/
def retime (durBody : Nat) (durOf : Nat → Nat) (len : Nat) (i : Nat)
    (n : test_log_node) : test_log_node :=
  { n with ms_took :=
      match n.func with
      | some f => durOf f
      | none => if i + 1 = len then durBody else n.ms_took }

theorem draw_case_eq (n : test_log_node) (s : TestState) :
    draw_case n s =
      { s with output := s.output ++ [drawTag n], errors := s.errors + drawInc n } := by
  unfold draw_case drawTag drawInc
  by_cases h1 : n.result = some test_results.Critical <;>
    by_cases h2 : n.result = some test_results.Success <;> simp [h1, h2]

theorem put_eq (s : TestState) (v : test_log_node) (h : s.infos.getLast? = some v) :
    put s =
      { s with
        output := s.output ++ [drawTag v, putLine s.current_location v]
        errors := s.errors + drawInc v } := by
  unfold put
  rw [h]
  simp [draw_case_eq]

theorem assert_spec (t : test_types) (a b : Int) (loc : SourceLocation)
    (s : TestState) (h : t ≠ test_types.MemLeak) :
    assert t a b loc s =
      { s with
        current_location := loc
        infos := s.infos ++ [assertEntry t a b]
        output := s.output ++ [drawTag (assertEntry t a b), putLine loc (assertEntry t a b)]
        errors := s.errors + drawInc (assertEntry t a b) } := by
  have hput : ∀ (s' : TestState) (r : test_results) (msg : String),
      put (put_log r msg s').1 =
        { s' with
          infos := s'.infos ++ [{ ms_took := 0, result := some r, data := msg, func := none }]
          output := s'.output ++
            [drawTag { ms_took := 0, result := some r, data := msg, func := none },
             putLine s'.current_location
               { ms_took := 0, result := some r, data := msg, func := none }]
          errors := s'.errors +
            drawInc { ms_took := 0, result := some r, data := msg, func := none } } := by
    intro s' r msg
    rw [put_eq (put_log r msg s').1
      { ms_took := 0, result := some r, data := msg, func := none }
      (by simp [put_log, List.getLast?_concat])]
    simp [put_log]
  cases t with
  | Eq =>
    by_cases hc : a = b <;>
      simp [assert, hput, assertEntry, predOf, failMsg, hc]
  | UnEq =>
    by_cases hc : a = b <;>
      simp [assert, hput, assertEntry, predOf, failMsg, hc]
  | Gt =>
    by_cases hc : a > b <;>
      simp [assert, hput, assertEntry, predOf, failMsg, hc]
  | Lt =>
    by_cases hc : a < b <;>
      simp [assert, hput, assertEntry, predOf, failMsg, hc]
  | GEq =>
    by_cases hc : a ≥ b <;>
      simp [assert, hput, assertEntry, predOf, failMsg, hc]
  | LEq =>
    by_cases hc : a ≤ b <;>
      simp [assert, hput, assertEntry, predOf, failMsg, hc]
  | MemLeak => exact absurd rfl h

theorem assert_rc_neg (e : Nat) (s : TestState) (h : s.rc < 0) :
    assert_rc e s =
      ({ s with
          infos := s.infos ++ [critEntry]
          output := s.output ++
            ["[CRITICAL]: ", putLine s.current_location critEntry,
             summaryText s.current_location s.errors e] }, true) := by
  unfold assert_rc
  rw [if_pos h]
  rw [put_eq (put_log test_results.Critical
      "(RC < 0) Deallocating not allocated value" s).1 critEntry
    (by simp [put_log, critEntry, List.getLast?_concat])]
  simp [put_log, summary, summaryText, critEntry, drawTag, drawInc]

theorem assert_rc_nonneg (e : Nat) (s : TestState) (h : 0 ≤ s.rc) :
    assert_rc e s = (s, false) := by
  unfold assert_rc
  rw [if_neg (by omega)]

theorem countError_append_single (l : List test_log_node) (n : test_log_node) :
    countError (l ++ [n]) =
      countError l + (if n.result = some test_results.Error then 1 else 0) := by
  unfold countError
  rw [List.filter_append]
  by_cases h : n.result = some test_results.Error <;> simp [h]

theorem drawInc_assertEntry (t : test_types) (a b : Int) :
    drawInc (assertEntry t a b) =
      (if (assertEntry t a b).result = some test_results.Error then 1 else 0) := by
  unfold drawInc assertEntry
  by_cases h : predOf t a b <;> simp [h]

theorem execOp_errInv (o : Op) (s : TestState) (h : errInv s) :
    errInv (execOp o s).1 := by
  cases o with
  | opAssert t a b loc =>
    by_cases hm : t = test_types.MemLeak
    · subst hm
      simpa [execOp, assert, errInv] using h
    · simp only [execOp]
      rw [assert_spec t a b loc s hm]
      unfold errInv at h ⊢
      simp only [countError_append_single, drawInc_assertEntry, h]
  | opTestFunction f =>
    simp only [execOp]
    unfold errInv at h ⊢
    simp [test_function, countError_append_single, h]
  | opAlloc e =>
    simp only [execOp]
    unfold alloc_step
    by_cases hrc : s.rc < 0
    · rw [assert_rc_neg e s hrc]
      unfold errInv at h ⊢
      simp [countError_append_single, critEntry, h]
    · rw [assert_rc_nonneg e s (by omega)]
      simpa [errInv] using h
  | opDealloc e =>
    simp only [execOp]
    unfold dealloc_step
    by_cases hrc : s.rc - 1 < 0
    · rw [assert_rc_neg e _ (by simpa using hrc)]
      unfold errInv at h ⊢
      simp [countError_append_single, critEntry, h]
    · rw [assert_rc_nonneg e _ (by simp; omega)]
      simpa [errInv] using h
  | opAssertRC e =>
    simp only [execOp]
    by_cases hrc : s.rc < 0
    · rw [assert_rc_neg e s hrc]
      unfold errInv at h ⊢
      simp [countError_append_single, critEntry, h]
    · rw [assert_rc_nonneg e s (by omega)]
      simpa [errInv] using h
  | opSummary e =>
    simp only [execOp]
    unfold errInv at h ⊢
    simpa [summary] using h

theorem execOps_errInv (ops : List Op) (s : TestState) (h : errInv s) :
    errInv (execOps ops s).1 := by
  induction ops generalizing s with
  | nil => simpa [execOps] using h
  | cons o rest ih =>
    unfold execOps
    by_cases hab : (execOp o s).2
    · simpa [hab] using execOp_errInv o s h
    · simpa [hab] using ih (execOp o s).1 (execOp_errInv o s h)

theorem errInv_init (f : Nat) (loc : SourceLocation) : errInv (test_init f loc) := by
  simp [errInv, test_init, fill_infos, countError]

theorem backfillLast_length (d : Nat) (l : List test_log_node) :
    (backfillLast d l).length = l.length := by
  unfold backfillLast
  cases h : l.getLast? <;> simp

theorem backfillLast_getElem? (d : Nat) (l : List test_log_node) (i : Nat) :
    (backfillLast d l)[i]? =
      if i + 1 = l.length then
        l[i]?.map fun n => { n with ms_took := d }
      else l[i]? := by
  unfold backfillLast
  cases h : l.getLast? with
  | none =>
    rw [List.getLast?_eq_none_iff] at h
    subst h
    simp
  | some n =>
    have hne : l ≠ [] := by
      intro hl
      subst hl
      simp at h
    have hlen : 1 ≤ l.length := by
      cases l with
      | nil => exact absurd rfl hne
      | cons x xs => simp
    by_cases hlast : i + 1 = l.length
    · have hidx : l.length - 1 = i := by omega
      have hi : i < l.length := by omega
      rw [if_pos hlast, hidx, List.getElem?_set_self hi, List.getElem?_eq_getElem hi]
      have hget : l[i] = n := by
        have hgl := l.getLast?_eq_getElem?
        rw [h, hidx, List.getElem?_eq_getElem hi] at hgl
        exact (Option.some_inj.mp hgl).symm
      simp [hget]
    · rw [if_neg hlast, List.getElem?_set_ne (by omega)]

theorem run_tests_none_iff (durBody : Nat) (durOf : Nat → Nat)
    (body : TestState → TestState) (s : TestState) :
    run_tests durBody durOf body s = none ↔ (body s).infos = [] := by
  unfold run_tests
  cases h : (body s).infos <;> simp [h]

theorem assert_current_location (t : test_types) (a b : Int) (loc : SourceLocation)
    (s : TestState) : (assert t a b loc s).current_location = loc := by
  by_cases h : t = test_types.MemLeak
  · subst h
    simp [assert]
  · rw [assert_spec t a b loc s h]

/-- C1: for every evaluated comparison kind (`Eq`, `UnEq`, `Gt`, `Lt`, `GEq`,
`LEq`) and every pair of operands, `assert` appends to the ledger exactly the
entry given by the corresponding binary predicate: a `Success` entry with
message "OK" when the predicate holds, and an `Error` entry with the
kind-specific descriptive message when it fails. -/
theorem C1_assert_records_predicate (t : test_types) (a b : Int)
    (loc : SourceLocation) (s : TestState) (h : t ≠ test_types.MemLeak) :
    (assert t a b loc s).infos =
      s.infos ++
        [if predOf t a b then
          { ms_took := 0, result := some test_results.Success, data := "OK", func := none }
        else
          { ms_took := 0, result := some test_results.Error, data := failMsg t, func := none }] := by
  rw [assert_spec t a b loc s h]
  simp only [assertEntry]

theorem C1_assert_records_predicate_witness :
    test_types.Gt ≠ test_types.MemLeak ∧
    (assert test_types.Gt 1 5 defaultLoc (test_init 0 defaultLoc)).infos =
      (test_init 0 defaultLoc).infos ++
        [if predOf test_types.Gt 1 5 then
          { ms_took := 0, result := some test_results.Success, data := "OK", func := none }
        else
          { ms_took := 0, result := some test_results.Error, data := failMsg test_types.Gt,
            func := none }] :=
  ⟨by decide,
   C1_assert_records_predicate test_types.Gt 1 5 defaultLoc (test_init 0 defaultLoc) (by decide)⟩

/-- C2 counterexample: in a fresh case whose counter has been driven to `-1`,
the guard appends a `Critical` entry and draws the `[CRITICAL]` outcome, yet
the error tally stays `0` while the number of `Error`-or-`Critical` ledger
entries is `1` — the tally does not count `Critical` outcomes, contrary to
the claim. -/
theorem C2_counterexample_critical_not_tallied :
    (assert_rc 0 sNeg).1.errors = 0 ∧
    countErrOrCrit (assert_rc 0 sNeg).1.infos = 1 := by
  constructor <;> decide

/-- C2 as amended: at every point of a case's execution the error tally equals
the number of ledger entries whose result is `Error` (not `Error` or
`Critical`); the tally is incremented at the moment the outcome is drawn, once
per assertion, for `[FAILED]` outcomes only — drawing a `[CRITICAL]` outcome
leaves the tally unchanged. -/
theorem C2_tally_counts_error_only (ops : List Op) (f : Nat) (loc : SourceLocation)
    (s : TestState) (n1 n2 : test_log_node) :
    (execOps ops (test_init f loc)).1.errors =
      countError (execOps ops (test_init f loc)).1.infos ∧
    (n1.result = some test_results.Critical → (draw_case n1 s).errors = s.errors) ∧
    (n2.result = some test_results.Error → (draw_case n2 s).errors = s.errors + 1) := by
  refine ⟨execOps_errInv ops (test_init f loc) (errInv_init f loc), ?_, ?_⟩
  · intro h1
    simp [draw_case_eq, drawInc, h1]
  · intro h2
    simp [draw_case_eq, drawInc, h2]

theorem C2_tally_counts_error_only_witness :
    (critEntry.result = some test_results.Critical ∧
      (assertEntry test_types.Eq 0 1).result = some test_results.Error) ∧
    (execOps [Op.opAssert test_types.Eq 0 1 defaultLoc] (test_init 0 defaultLoc)).1.errors =
      countError (execOps [Op.opAssert test_types.Eq 0 1 defaultLoc]
        (test_init 0 defaultLoc)).1.infos ∧
    (draw_case critEntry (test_init 0 defaultLoc)).errors = (test_init 0 defaultLoc).errors ∧
    (draw_case (assertEntry test_types.Eq 0 1) (test_init 0 defaultLoc)).errors =
      (test_init 0 defaultLoc).errors + 1 := by
  have h := C2_tally_counts_error_only [Op.opAssert test_types.Eq 0 1 defaultLoc] 0
    defaultLoc (test_init 0 defaultLoc) critEntry (assertEntry test_types.Eq 0 1)
  exact ⟨⟨by decide, by decide⟩, h.1, h.2.1 (by decide), h.2.2 (by decide)⟩

/-- C3: whenever the guard check observes a negative resource counter it
appends a `Critical` entry with message "(RC &lt; 0) Deallocating not allocated
value", prints the `[CRITICAL]` line and the summary, and aborts; an abort of
any harness operation implies the corresponding counter value was negative (so
this is the only fatal path, and after it the remaining operations of the
case never execute), while an assertion operation never aborts. -/
theorem C3_negative_rc_fatal (s : TestState) (e : Nat) (o : Op) (s2 : TestState)
    (rest : List Op) (t : test_types) (a b : Int) (loc : SourceLocation) :
    (s.rc < 0 →
      assert_rc e s =
        ({ s with
            infos := s.infos ++ [critEntry]
            output := s.output ++
              ["[CRITICAL]: ", putLine s.current_location critEntry,
                summaryText s.current_location s.errors e] }, true)) ∧
    ((execOp o s2).2 = true → fatalRC o s2) ∧
    ((execOp o s2).2 = true → execOps (o :: rest) s2 = ((execOp o s2).1, true)) ∧
    (execOp (Op.opAssert t a b loc) s2).2 = false := by
  refine ⟨fun h => assert_rc_neg e s h, ?_, ?_, by simp [execOp]⟩
  · cases o with
    | opAssert t' a' b' loc' => simp [execOp, fatalRC]
    | opTestFunction f => simp [execOp, fatalRC]
    | opSummary e' => simp [execOp, fatalRC]
    | opAlloc e' =>
      simp only [execOp, fatalRC, alloc_step]
      by_cases hrc : s2.rc < 0
      · intro _
        exact hrc
      · rw [assert_rc_nonneg e' s2 (by omega)]
        simp
    | opDealloc e' =>
      simp only [execOp, fatalRC, dealloc_step]
      by_cases hrc : s2.rc - 1 < 0
      · intro _
        exact hrc
      · rw [assert_rc_nonneg e' _ (by simp; omega)]
        simp
    | opAssertRC e' =>
      simp only [execOp, fatalRC]
      by_cases hrc : s2.rc < 0
      · intro _
        exact hrc
      · rw [assert_rc_nonneg e' s2 (by omega)]
        simp
  · intro hab
    simp [execOps, hab]

theorem C3_negative_rc_fatal_witness :
    (sNeg.rc < 0 ∧
      assert_rc 0 sNeg =
        ({ sNeg with
            infos := sNeg.infos ++ [critEntry]
            output := sNeg.output ++
              ["[CRITICAL]: ", putLine sNeg.current_location critEntry,
                summaryText sNeg.current_location sNeg.errors 0] }, true)) ∧
    ((execOp (Op.opDealloc 0) (test_init 0 defaultLoc)).2 = true ∧
      fatalRC (Op.opDealloc 0) (test_init 0 defaultLoc)) ∧
    execOps [Op.opDealloc 0, Op.opSummary 0] (test_init 0 defaultLoc) =
      ((execOp (Op.opDealloc 0) (test_init 0 defaultLoc)).1, true) ∧
    (execOp (Op.opAssert test_types.Eq 0 0 defaultLoc) (test_init 0 defaultLoc)).2 = false := by
  have h := C3_negative_rc_fatal sNeg 0 (Op.opDealloc 0) (test_init 0 defaultLoc)
    [Op.opSummary 0] test_types.Eq 0 0 defaultLoc
  have hab : (execOp (Op.opDealloc 0) (test_init 0 defaultLoc)).2 = true := by decide
  exact ⟨⟨by decide, h.1 (by decide)⟩, ⟨hab, h.2.1 hab⟩, h.2.2.1 hab, h.2.2.2⟩

/-- C4 counterexample: in a fresh case the counter is `0`, so a guard check
run before the release mutation could not fire; yet `DEALLOC` aborts — the
source decrements first and checks after, unlike the spec-ordered variant
`dealloc_checkFirst`, which does not abort from the same state. -/
theorem C4_counterexample_check_after_release :
    (test_init 0 defaultLoc).rc = 0 ∧
    (dealloc_step 0 (test_init 0 defaultLoc)).2 = true ∧
    (dealloc_checkFirst 0 (test_init 0 defaultLoc)).2 = false := by
  refine ⟨by decide, by decide, by decide⟩

/-- C4 as amended: the guard check runs before the acquire mutation (`ALLOC`
checks the pre-mutation counter: with a non-negative counter it increments
without aborting, with a negative one it aborts before incrementing), but
after the release mutation (`DEALLOC` aborts exactly when the decremented
counter is negative), and runs once more at case teardown before the final
summary. -/
theorem C4_guard_check_order (s s3 : TestState) (e e2 : Nat) :
    (0 ≤ s.rc → alloc_step e s = ({ s with rc := s.rc + 1 }, false)) ∧
    ((dealloc_step e s).2 = true ↔ s.rc - 1 < 0) ∧
    (s3.rc < 0 → (alloc_step e s3).2 = true) ∧
    (0 ≤ s.rc → test_destructor e e2 s = (summary e2 s, false)) := by
  refine ⟨?_, ?_, ?_, ?_⟩
  · intro h
    unfold alloc_step
    rw [assert_rc_nonneg e s h]
    simp
  · unfold dealloc_step
    by_cases hrc : s.rc - 1 < 0
    · rw [assert_rc_neg e _ (by simpa using hrc)]
      simpa using hrc
    · rw [assert_rc_nonneg e _ (by simp; omega)]
      simpa using hrc
  · intro h
    unfold alloc_step
    rw [assert_rc_neg e s3 h]
    simp
  · intro h
    unfold test_destructor
    rw [assert_rc_nonneg e s h]
    simp

theorem run_tests_eq (durBody : Nat) (durOf : Nat → Nat)
    (body : TestState → TestState) (s : TestState) (h : (body s).infos ≠ []) :
    run_tests durBody durOf body s =
      some ({ body s with
          infos := (backfillLast durBody (body s).infos).map fun n =>
            match n.func with
            | some f => { n with ms_took := durOf f }
            | none => n },
        (body s).infos.filterMap fun n => n.func) := by
  simp only [run_tests]
  cases hl : (body s).infos with
  | nil => exact absurd hl h
  | cons x xs => simp

theorem backfillMap_getElem? (durBody : Nat) (durOf : Nat → Nat)
    (l : List test_log_node) (i : Nat) :
    ((backfillLast durBody l).map fun n =>
        match n.func with
        | some f => { n with ms_took := durOf f }
        | none => n)[i]? =
      l[i]?.map (retime durBody durOf l.length i) := by
  rw [List.getElem?_map, backfillLast_getElem?]
  by_cases hc : i + 1 = l.length
  · rw [if_pos hc]
    cases hgi : l[i]? with
    | none => simp
    | some n =>
      cases n with
      | mk ms r d fn => cases fn <;> simp [retime, hc]
  · rw [if_neg hc]
    cases hgi : l[i]? with
    | none => simp
    | some n =>
      cases n with
      | mk ms r d fn => cases fn <;> simp [retime, hc]

/-- C5 counterexample: a case body that only registers one sub-function.  The
whole-body duration (here 5) is written into the most-recently-appended
entry, but the sub-function loop then overwrites that same entry with the
sub-function's own measurement (here 3): after `run_tests` completes, the
most-recently-appended entry holds 3, not the whole-body duration, so the
claimed postcondition fails. -/
theorem C5_counterexample_body_time_overwritten :
    (run_tests 5 (fun _ => 3) (test_function 7) (test_init 0 defaultLoc)).map
        (fun p => ((p.1.infos.map fun n => n.ms_took), p.2)) = some ([3], [7]) ∧
    ¬ (run_tests 5 (fun _ => 3) (test_function 7) (test_init 0 defaultLoc)).map
        (fun p => p.1.infos.map fun n => n.ms_took) = some [5] := by
  constructor <;> decide

/-- C5 as amended: provided the ledger is non-empty once the body has run,
`run_tests` succeeds; the whole-body duration is written into the entry that
was last-appended when the body finished, every registered sub-function is
executed in registration order (the returned trace is the ledger's `func`
fields in order) and timed independently, its entry back-filled with its own
measurement — which, when the last-appended entry is itself a registered
sub-function's, overwrites the whole-body duration previously written there;
all non-duration fields and the error tally are unchanged. -/
theorem C5_run_tests_timing (durBody : Nat) (durOf : Nat → Nat)
    (body : TestState → TestState) (s : TestState) (h : (body s).infos ≠ []) :
    ∃ s2 tr, run_tests durBody durOf body s = some (s2, tr) ∧
      tr = (body s).infos.filterMap (fun n => n.func) ∧
      s2.infos.length = (body s).infos.length ∧
      s2.errors = (body s).errors ∧
      ∀ i, s2.infos[i]? =
        (body s).infos[i]?.map (retime durBody durOf (body s).infos.length i) := by
  refine ⟨_, _, run_tests_eq durBody durOf body s h, rfl, ?_, rfl, ?_⟩
  · simp [backfillLast_length]
  · intro i
    exact backfillMap_getElem? durBody durOf (body s).infos i

theorem C5_run_tests_timing_witness :
    (assert test_types.Eq 1 1 defaultLoc (test_init 0 defaultLoc)).infos ≠ [] ∧
    (∃ s2 tr, run_tests 5 (fun _ => 3) (assert test_types.Eq 1 1 defaultLoc)
        (test_init 0 defaultLoc) = some (s2, tr) ∧
      tr = (assert test_types.Eq 1 1 defaultLoc (test_init 0 defaultLoc)).infos.filterMap
        (fun n => n.func) ∧
      s2.infos.length =
        (assert test_types.Eq 1 1 defaultLoc (test_init 0 defaultLoc)).infos.length ∧
      s2.errors = (assert test_types.Eq 1 1 defaultLoc (test_init 0 defaultLoc)).errors ∧
      ∀ i, s2.infos[i]? =
        (assert test_types.Eq 1 1 defaultLoc (test_init 0 defaultLoc)).infos[i]?.map
          (retime 5 (fun _ => 3)
            (assert test_types.Eq 1 1 defaultLoc (test_init 0 defaultLoc)).infos.length i)) :=
  ⟨by decide,
   C5_run_tests_timing 5 (fun _ => 3) (assert test_types.Eq 1 1 defaultLoc)
     (test_init 0 defaultLoc) (by decide)⟩

/-- C6: every call to `assert` with one of the six evaluated comparison kinds
grows the ledger by exactly one entry, and the last kind, `LessOrEqual`,
independently terminates: its evaluation appends exactly its own entry, whose
message is "OK" or the `LEq`-specific failure message — never an adjacent
case's. -/
theorem C6_assert_appends_one (t : test_types) (a b : Int) (loc : SourceLocation)
    (s : TestState) (h : t ≠ test_types.MemLeak) :
    (assert t a b loc s).infos.length = s.infos.length + 1 ∧
    (assert test_types.LEq a b loc s).infos = s.infos ++ [assertEntry test_types.LEq a b] ∧
    (assertEntry test_types.LEq a b).data =
      (if a ≤ b then "OK"
       else "Given values are greater or equal, expected not greater or equal") := by
  refine ⟨?_, ?_, ?_⟩
  · rw [assert_spec t a b loc s h]
    simp
  · rw [assert_spec test_types.LEq a b loc s (by decide)]
  · unfold assertEntry predOf failMsg
    by_cases hc : a ≤ b <;> simp [hc]

theorem C6_assert_appends_one_witness :
    test_types.Eq ≠ test_types.MemLeak ∧
    ((assert test_types.Eq 5 1 defaultLoc (test_init 0 defaultLoc)).infos.length =
        (test_init 0 defaultLoc).infos.length + 1 ∧
      (assert test_types.LEq 5 1 defaultLoc (test_init 0 defaultLoc)).infos =
        (test_init 0 defaultLoc).infos ++ [assertEntry test_types.LEq 5 1] ∧
      (assertEntry test_types.LEq 5 1).data =
        (if (5 : Int) ≤ 1 then "OK"
         else "Given values are greater or equal, expected not greater or equal")) :=
  ⟨by decide,
   C6_assert_appends_one test_types.Eq 5 1 defaultLoc (test_init 0 defaultLoc) (by decide)⟩

/-- C7: `run_tests` dereferences the last ledger entry with no emptiness
check; the dereference — undefined behaviour in the source, modelled as
`none` — happens exactly when the ledger is empty once the body has run (no
assertion issued and no sub-function ever registered), so `run_tests` is safe
precisely under the non-empty-ledger precondition. -/
theorem C7_run_tests_empty_ledger (durBody : Nat) (durOf : Nat → Nat)
    (body : TestState → TestState) (s : TestState) :
    run_tests durBody durOf body s = none ↔ (body s).infos = [] :=
  run_tests_none_iff durBody durOf body s

theorem C7_run_tests_empty_ledger_witness :
    run_tests 0 (fun _ => 0) (fun s => s) (test_init 0 defaultLoc) = none :=
  (C7_run_tests_empty_ledger 0 (fun _ => 0) (fun s => s) (test_init 0 defaultLoc)).mpr rfl

/-- C8: issuing the same assertion twice with unchanged inputs appends two
structurally identical ledger entries — literally the same node (same result
kind, same message, both with the ambient duration 0) listed twice. -/
theorem C8_assert_idempotent (t : test_types) (a b : Int) (loc : SourceLocation)
    (s : TestState) (h : t ≠ test_types.MemLeak) :
    (assert t a b loc (assert t a b loc s)).infos =
      s.infos ++ [assertEntry t a b, assertEntry t a b] := by
  rw [assert_spec t a b loc (assert t a b loc s) h, assert_spec t a b loc s h]
  simp

theorem C8_assert_idempotent_witness :
    test_types.GEq ≠ test_types.MemLeak ∧
    (assert test_types.GEq 1 2 defaultLoc
        (assert test_types.GEq 1 2 defaultLoc (test_init 0 defaultLoc))).infos =
      (test_init 0 defaultLoc).infos ++
        [assertEntry test_types.GEq 1 2, assertEntry test_types.GEq 1 2] :=
  ⟨by decide,
   C8_assert_idempotent test_types.GEq 1 2 defaultLoc (test_init 0 defaultLoc) (by decide)⟩

/-- C9: the summary prints the file of `current_location`; `current_location`
is set by `assert` to the assertion call site and changed by no other
operation (`assert_rc`, `test_function`, `summary`, `put` leave it alone), so
the summary reports the most recent assertion's call site; the four
declaration-metadata members filled by `fill_infos` at construction are never
read (replacing them changes no printed output); and at construction
`current_location` is default-constructed, which is what a summary with no
prior assertion prints. -/
theorem C9_location_reporting (e : Nat) (s : TestState) (l c : Nat)
    (fb fn : String) (t : test_types) (a b : Int) (loc dl : SourceLocation) (f : Nat) :
    (summary e s).output = s.output ++ [summaryText s.current_location s.errors e] ∧
    (assert t a b loc s).current_location = loc ∧
    (assert_rc e s).1.current_location = s.current_location ∧
    (test_function f s).current_location = s.current_location ∧
    (summary e s).current_location = s.current_location ∧
    (put s).current_location = s.current_location ∧
    (summary e (setDecl l c fb fn s)).output = (summary e s).output ∧
    (put (setDecl l c fb fn s)).output = (put s).output ∧
    (test_init f dl).current_location = defaultLoc := by
  refine ⟨rfl, assert_current_location t a b loc s, ?_, rfl, rfl, ?_, rfl, ?_, rfl⟩
  · by_cases hrc : s.rc < 0
    · rw [assert_rc_neg e s hrc]
    · rw [assert_rc_nonneg e s (by omega)]
  · simp only [put]
    cases hg : s.infos.getLast? <;> simp [draw_case_eq]
  · simp only [put, setDecl]
    cases hg : s.infos.getLast? <;> simp [draw_case_eq]

/-- C10: with a non-negative resource counter the guard check is a complete
no-op — it returns the state unchanged (no ledger entry, no output, no field
modified) and does not abort. -/
theorem C10_assert_rc_noop (e : Nat) (s : TestState) (h : 0 ≤ s.rc) :
    assert_rc e s = (s, false) :=
  assert_rc_nonneg e s h

theorem C10_assert_rc_noop_witness :
    0 ≤ (test_init 0 defaultLoc).rc ∧
    assert_rc 7 (test_init 0 defaultLoc) = (test_init 0 defaultLoc, false) :=
  ⟨by decide, C10_assert_rc_noop 7 (test_init 0 defaultLoc) (by decide)⟩

theorem C4_guard_check_order_witness :
    (0 ≤ (test_init 0 defaultLoc).rc ∧
      alloc_step 0 (test_init 0 defaultLoc) =
        ({ test_init 0 defaultLoc with rc := (test_init 0 defaultLoc).rc + 1 }, false)) ∧
    ((dealloc_step 0 (test_init 0 defaultLoc)).2 = true ↔
      (test_init 0 defaultLoc).rc - 1 < 0) ∧
    (sNeg.rc < 0 ∧ (alloc_step 0 sNeg).2 = true) ∧
    (test_destructor 0 7 (test_init 0 defaultLoc) =
      (summary 7 (test_init 0 defaultLoc), false)) := by
  have h := C4_guard_check_order (test_init 0 defaultLoc) sNeg 0 7
  exact ⟨⟨by decide, h.1 (by decide)⟩, h.2.1, ⟨by decide, h.2.2.1 (by decide)⟩,
    h.2.2.2 (by decide)⟩

end gech
